import Mathlib

/-!
Shallow embedding of the auto-reply core of the repository
(`backend/auto_reply.py`, class `AutoReplyManager`), together with the
external collaborator interfaces it consumes (template store lookup,
messaging gateway polling/sending, response generator).

Python strings are modelled as Lean `String` (a structure over `List Char`);
the Python string operations used by the core (`lower`, `in`, `startswith`,
`endswith`, slicing) are modelled character-wise on the underlying list.
Python dicts (insertion-ordered, unique keys) are modelled as association
lists with first-occurrence lookup/replace/pop. Timestamps (`datetime.now()`
values and second differences) are modelled as integers (time-units).
Python exceptions from collaborators are modelled with `Except`.
-/

namespace AutoReply

/-- Python `s.lower()`: character-wise lowercasing. -/
def pyLower (s : String) : String := ⟨s.data.map Char.toLower⟩

/-- Python `sub in s` for strings: substring (contiguous) containment. -/
def pyContains (s sub : String) : Bool := decide (sub.data <:+: s.data)

/-- Python `s.startswith(p)`. -/
def pyStartsWith (s p : String) : Bool := decide (p.data <+: s.data)

/-- Python `s.endswith(p)`. -/
def pyEndsWith (s p : String) : Bool := decide (p.data <:+ s.data)

/-- Python `s[n:]`. -/
def pyDrop (s : String) (n : Nat) : String := ⟨s.data.drop n⟩

/-- Python truthiness of an `Optional[str]`: `None` and `""` are falsy. -/
def pyTruthy : Option String → Bool
  | none => false
  | some s => s != ""

/-- `models.AutoReplyConfig` (pydantic model). `conditions` is a Python
`Dict[str, str]`: insertion-ordered, unique keys. -/
structure AutoReplyConfig where
  is_enabled : Bool := false
  template_id : Option String := none
  conditions : List (String × String) := []
deriving DecidableEq

/-- An inbound message dict as produced by the gateway. The core accesses
the keys `text` (via `.get('text', '')`) and `thread_id` (via subscript,
which raises `KeyError` when absent); each field is `none` when the key is
missing from the dict. -/
structure Message where
  thread_id : Option String := none
  sender_id : Option String := none
  text : Option String := none
deriving DecidableEq

/-- `models.Template`: only `content` is read by the core. -/
structure Template where
  id : Option String := none
  name : String := ""
  content : String
deriving DecidableEq

/-- `settings.AUTO_REPLY_CHECK_INTERVAL` (config.py line 36): 60 time-units. -/
def AUTO_REPLY_CHECK_INTERVAL : Int := 60

/-- The condition loop body of `AutoReplyManager._should_reply`
(auto_reply.py lines 99-110): iterate the condition dict items in order,
returning `false` at the first recognized condition that fails; unrecognized
kinds fall through; an exhausted list returns `true`. -/
def checkConditions (message_text : String) : List (String × String) → Bool
  | [] => true
  | (condition_type, condition_value) :: rest =>
    if condition_type = "contains" then
      if pyContains message_text (pyLower condition_value) then
        checkConditions message_text rest
      else false
    else if condition_type = "starts_with" then
      if pyStartsWith message_text (pyLower condition_value) then
        checkConditions message_text rest
      else false
    else if condition_type = "ends_with" then
      if pyEndsWith message_text (pyLower condition_value) then
        checkConditions message_text rest
      else false
    else
      checkConditions message_text rest

/-- `AutoReplyManager._should_reply` (auto_reply.py lines 93-114):
`message_text = message.get('text', '').lower()`, then the condition loop.
The enclosing `try` never fires in this typed model (all operations are
total), so the `except: return False` branch has no counterpart. -/
def should_reply (message : Message) (config : AutoReplyConfig) : Bool :=
  checkConditions (pyLower (message.text.getD "")) config.conditions

/-- Modelled from the spec's wording of one condition (section 4.1):
a recognized kind is tested against the lowercased message text with the
lowercased operand; an unrecognized kind holds vacuously. Used as the
specification side of the refinement claim about `should_reply`. -/
def specCondHolds (text condition_type condition_value : String) : Bool :=
  if condition_type = "contains" then pyContains text (pyLower condition_value)
  else if condition_type = "starts_with" then pyStartsWith text (pyLower condition_value)
  else if condition_type = "ends_with" then pyEndsWith text (pyLower condition_value)
  else true

theorem checkConditions_eq_all (text : String) (l : List (String × String)) :
    checkConditions text l = l.all fun p => specCondHolds text p.1 p.2 := by
  induction l with
  | nil => rfl
  | cons hd tl ih =>
    obtain ⟨k, v⟩ := hd
    by_cases h1 : k = "contains"
    · simp only [checkConditions, specCondHolds, h1, if_true, List.all_cons, if_pos rfl]
      cases pyContains text (pyLower v) <;> simp [ih, specCondHolds]
    · by_cases h2 : k = "starts_with"
      · simp only [checkConditions, specCondHolds, h1, h2, if_true, if_false,
          List.all_cons, if_neg h1, if_pos rfl]
        cases pyStartsWith text (pyLower v) <;> simp [ih, specCondHolds]
      · by_cases h3 : k = "ends_with"
        · simp only [checkConditions, specCondHolds, h1, h2, h3, List.all_cons,
            if_neg h1, if_neg h2, if_pos rfl]
          cases pyEndsWith text (pyLower v) <;> simp [ih, specCondHolds]
        · simp only [checkConditions, specCondHolds, List.all_cons,
            if_neg h1, if_neg h2, if_neg h3]
          simp [ih, specCondHolds]

/-! ### Python dict operations, modelled on association lists

Python dicts are insertion-ordered with unique keys.  `dictGet?` is `d.get(k)`
/ `k in d`, `dictInsert` is `d[k] = v` (replace in place, else append),
`dictPop` is `d.pop(k, None)` (remove the entry when present, no-op
otherwise). -/

def dictGet? {α : Type} (k : String) : List (String × α) → Option α
  | [] => none
  | (k', v) :: rest => if k' = k then some v else dictGet? k rest

def dictInsert {α : Type} (k : String) (v : α) : List (String × α) → List (String × α)
  | [] => [(k, v)]
  | (k', v') :: rest => if k' = k then (k, v) :: rest else (k', v') :: dictInsert k v rest

def dictPop {α : Type} (k : String) : List (String × α) → List (String × α)
  | [] => []
  | (k', v') :: rest => if k' = k then rest else (k', v') :: dictPop k rest

/-- A call made to the response generator (`groq_client`) by the template
resolver; recorded so that theorems can speak about whether and how the
generator was invoked. -/
inductive GroqCall
  | analyze (text : String)
  | generate (text : String) (intent_analysis : Option String) (template_guide : String)
deriving DecidableEq

/-- Observable actions of one tick: a gateway poll
(`instagram_client.check_new_messages(username)` was called), a successful
reply send, a failed reply send. -/
inductive Event
  | poll (username : String)
  | sent (username thread_id text : String)
  | sendFailed (username thread_id : String) (error : Option String)
deriving DecidableEq

/-- The external collaborators, at their interface boundary:
`instagram_client.check_new_messages` may raise (modelled `Except`) or
return a message list; `db.get_template` returns a template or `None`
(its argument is the config's `template_id`, itself optional);
`groq_client.analyze_message_intent` and `groq_client.generate_dm_response`
return a result or `None` (a raise inside them is caught there and surfaces
as `None`, per their own try/except); `instagram_client.send_auto_reply`
returns `(success, error)`. -/
structure Env where
  check_new_messages : String → Except String (List Message)
  get_template : Option String → Option Template
  analyze_message_intent : String → Option String
  generate_dm_response : String → Option String → String → Option String
  send_auto_reply : String → String → String → Bool × Option String

/-- `AutoReplyManager._get_reply_template` (auto_reply.py lines 116-145),
instrumented with the list of generator calls it makes.  Looks the template
up; on the literal prefix `AI:` it requests an intent analysis and then a
generated response with context `(intent_analysis, content[3:])`, returning
the response when truthy and otherwise the raw template content; without
the marker it returns the content directly. -/
def get_reply_template (env : Env) (template_id : Option String) (message : Message) :
    Option String × List GroqCall :=
  match env.get_template template_id with
  | none => (none, [])
  | some template =>
    if pyStartsWith template.content "AI:" then
      let text := message.text.getD ""
      let intent_analysis := env.analyze_message_intent text
      let template_guide := pyDrop template.content 3
      let response := env.generate_dm_response text intent_analysis template_guide
      ((if pyTruthy response then response else some template.content),
        [GroqCall.analyze text, GroqCall.generate text intent_analysis template_guide])
    else
      (some template.content, [])

/-- `AutoReplyManager._process_message` (auto_reply.py lines 66-91).  All
faults are caught inside it (own try/except), so it yields events but never
raises: a missing `thread_id` key (Python `KeyError` at
`message['thread_id']`) ends the message with no send. -/
def process_message (env : Env) (username : String) (message : Message)
    (config : AutoReplyConfig) : List Event :=
  if should_reply message config = false then []
  else
    match (get_reply_template env config.template_id message).1 with
    | none => []
    | some template =>
      match message.thread_id with
      | none => []
      | some thread_id =>
        match env.send_auto_reply username thread_id template with
        | (true, _) => [Event.sent username thread_id template]
        | (false, error) => [Event.sendFailed username thread_id error]

/-- The skip test of `AutoReplyManager._check_new_messages` (auto_reply.py
lines 50-54): an account is skipped when it has a recorded last-check time
whose difference to `now` is less than `AUTO_REPLY_CHECK_INTERVAL`. -/
def recentlyChecked (lct : List (String × Int)) (now : Int) (username : String) : Bool :=
  match dictGet? username lct with
  | some t => decide (now - t < AUTO_REPLY_CHECK_INTERVAL)
  | none => false

/-- Per-account poll-or-skip (auto_reply.py lines 48-64), continuing
`recentlyChecked`: on skip nothing happens; otherwise the gateway is polled
(a raise there is caught and the last-check time is then NOT updated); on
success `now` is recorded and every returned message is processed in order. -/
def check_account (env : Env) (now : Int) (lct : List (String × Int))
    (username : String) (config : AutoReplyConfig) :
    List (String × Int) × List Event :=
  if recentlyChecked lct now username then (lct, [])
  else
    match env.check_new_messages username with
    | .error _ => (lct, [Event.poll username])
    | .ok messages =>
      (dictInsert username now lct,
        Event.poll username ::
          (messages.map fun m => process_message env username m config).flatten)

/-- The loop of `AutoReplyManager._check_new_messages` over
`self.active_configs.items()`, threading `self.last_check_times` through. -/
def check_accounts (env : Env) (now : Int) :
    List (String × AutoReplyConfig) → List (String × Int) →
    List (String × Int) × List Event
  | [], lct => (lct, [])
  | (username, config) :: rest, lct =>
    let r1 := check_account env now lct username config
    let r2 := check_accounts env now rest r1.1
    (r2.1, r1.2 ++ r2.2)

/-- `AutoReplyManager` state: `is_running`, `active_configs`,
`last_check_times` (auto_reply.py lines 14-17). -/
structure ManagerState where
  is_running : Bool := false
  active_configs : List (String × AutoReplyConfig) := []
  last_check_times : List (String × Int) := []

/-- `AutoReplyManager._check_new_messages` (auto_reply.py lines 45-64) as a
whole-state tick at external time `now`: it yields the updated state and the
tick's events. -/
def check_new_messages (env : Env) (now : Int) (st : ManagerState) :
    ManagerState × List Event :=
  let r := check_accounts env now st.active_configs st.last_check_times
  ({ st with last_check_times := r.1 }, r.2)

/-- `AutoReplyManager.update_config` (auto_reply.py lines 36-43). -/
def update_config (st : ManagerState) (username : String)
    (config : AutoReplyConfig) : ManagerState :=
  if config.is_enabled then
    { st with active_configs := dictInsert username config st.active_configs }
  else
    { st with active_configs := dictPop username st.active_configs }

/-- `AutoReplyManager.stop` (auto_reply.py lines 31-34). -/
def stop (st : ManagerState) : ManagerState := { st with is_running := false }

/-- The outcome of one iteration of the `while self.is_running` loop in
`AutoReplyManager.start` (auto_reply.py lines 23-29): the state afterwards,
whether the loop exited at this iteration boundary, whether an exception
escaping the tick was caught by the top-level handler, and how long the
iteration slept before the next one (`none` when it exited instead). -/
structure StepResult where
  state : ManagerState
  exited : Bool
  caught : Bool
  sleep : Option Int

/-- One iteration of the polling loop in `AutoReplyManager.start`.  The
tick (`self._check_new_messages()` plus anything else inside the `try`) is
abstracted as a function that may raise; both the success path and the
caught-exception path sleep `AUTO_REPLY_CHECK_INTERVAL`. -/
def loop_step (tick : ManagerState → Except String (ManagerState × List Event))
    (st : ManagerState) : StepResult :=
  if st.is_running then
    match tick st with
    | .ok (st', _) => ⟨st', false, false, some AUTO_REPLY_CHECK_INTERVAL⟩
    | .error _ => ⟨st, false, true, some AUTO_REPLY_CHECK_INTERVAL⟩
  else ⟨st, true, false, none⟩

/-- Is this event a gateway poll of the given account? -/
def isPollOf (username : String) : Event → Bool
  | .poll u => u = username
  | _ => false

/-- Number of gateway poll calls for one account among a list of events. -/
def countPolls (username : String) (events : List Event) : Nat :=
  (events.filter (isPollOf username)).length

/-! ### Supporting lemmas -/

theorem pyLower_data (s : String) : (pyLower s).data = s.data.map Char.toLower := rfl

theorem pyLower_empty : pyLower "" = "" := rfl

theorem data_eq_nil_iff (s : String) : s.data = [] ↔ s = "" := by
  constructor
  · intro h; cases s; simp_all
  · intro h; rw [h]

theorem specCondHolds_empty_text (k v : String)
    (hk : k = "contains" ∨ k = "starts_with" ∨ k = "ends_with") (hv : v ≠ "") :
    specCondHolds "" k v = false := by
  have hd : (pyLower v).data ≠ [] := by
    rw [pyLower_data]
    simp only [ne_eq, List.map_eq_nil_iff]
    intro h
    exact hv ((data_eq_nil_iff v).1 h)
  rcases hk with h | h | h <;> subst h <;>
    simp [specCondHolds, pyContains, pyStartsWith, pyEndsWith,
      List.prefix_nil, List.suffix_nil, List.infix_nil, hd]

/-! ### Claim theorems -/

/-- C1: for every message and condition mapping, `should_reply` returns true
iff every recognized condition kind holds against the lowercased message
text with the lowercased operand (`contains` substring, `starts_with`
prefix, `ends_with` suffix); unrecognized kinds hold vacuously in
`specCondHolds`, so they are ignored, and an empty mapping yields true
since the quantification is over no conditions. -/
theorem C1_should_reply_iff_all_conditions (m : Message) (c : AutoReplyConfig) :
    should_reply m c = true ↔
      ∀ p ∈ c.conditions,
        specCondHolds (pyLower (m.text.getD "")) p.1 p.2 = true := by
  rw [should_reply, checkConditions_eq_all, List.all_eq_true]

/-- C10: a message dict without a `text` key is evaluated against the empty
string: an empty condition mapping yields true, and any recognized condition
with a non-empty operand yields false. -/
theorem C10_missing_text_key (m : Message) (c : AutoReplyConfig)
    (hm : m.text = none) :
    (c.conditions = [] → should_reply m c = true) ∧
    (∀ k v, (k, v) ∈ c.conditions →
      (k = "contains" ∨ k = "starts_with" ∨ k = "ends_with") → v ≠ "" →
      should_reply m c = false) := by
  have htext : pyLower (m.text.getD "") = "" := by rw [hm]; rfl
  constructor
  · intro hc
    rw [should_reply, htext, hc]
    rfl
  · intro k v hmem hk hv
    rw [should_reply, htext, checkConditions_eq_all]
    cases hb : (c.conditions.all fun p => specCondHolds "" p.1 p.2) with
    | false => rfl
    | true =>
      exfalso
      have h1 := (List.all_eq_true.mp hb) (k, v) hmem
      rw [specCondHolds_empty_text k v hk hv] at h1
      exact Bool.false_ne_true h1

theorem AI_marker_data : ("AI:" : String).data = ['A', 'I', ':'] := rfl

theorem dictGet?_dictInsert_self {α : Type} (k : String) (v : α)
    (l : List (String × α)) : dictGet? k (dictInsert k v l) = some v := by
  induction l with
  | nil => simp [dictInsert, dictGet?]
  | cons hd tl ih =>
    obtain ⟨k', v'⟩ := hd
    by_cases h : k' = k
    · simp [dictInsert, dictGet?, h]
    · simp [dictInsert, dictGet?, h, ih]

theorem dictGet?_dictInsert_ne {α : Type} (k j : String) (v : α)
    (l : List (String × α)) (h : j ≠ k) :
    dictGet? j (dictInsert k v l) = dictGet? j l := by
  induction l with
  | nil => simp [dictInsert, dictGet?, Ne.symm h]
  | cons hd tl ih =>
    obtain ⟨k', v'⟩ := hd
    by_cases hk : k' = k
    · subst hk
      simp [dictInsert, dictGet?, Ne.symm h]
    · simp only [dictInsert, if_neg hk]
      by_cases hj : k' = j
      · simp [dictGet?, hj]
      · simp [dictGet?, hj, ih]

theorem dictGet?_eq_none_iff {α : Type} (k : String) (l : List (String × α)) :
    dictGet? k l = none ↔ ∀ p ∈ l, p.1 ≠ k := by
  induction l with
  | nil => simp [dictGet?]
  | cons hd tl ih =>
    obtain ⟨k', v'⟩ := hd
    by_cases h : k' = k
    · simp [dictGet?, h]
    · simp [dictGet?, h, ih]

theorem dictGet?_dictPop_self {α : Type} (k : String) (l : List (String × α))
    (h : (l.map Prod.fst).Nodup) : dictGet? k (dictPop k l) = none := by
  induction l with
  | nil => simp [dictPop, dictGet?]
  | cons hd tl ih =>
    obtain ⟨k', v'⟩ := hd
    rw [List.map_cons, List.nodup_cons] at h
    by_cases hk : k' = k
    · subst hk
      rw [dictPop, if_pos rfl, dictGet?_eq_none_iff]
      intro p hp hpk
      exact h.1 (List.mem_map.mpr ⟨p, hp, hpk⟩)
    · simp [dictPop, dictGet?, hk, ih h.2]

theorem dictPop_of_absent {α : Type} (k : String) (l : List (String × α))
    (h : dictGet? k l = none) : dictPop k l = l := by
  induction l with
  | nil => rfl
  | cons hd tl ih =>
    obtain ⟨k', v'⟩ := hd
    rw [dictGet?] at h
    by_cases hk : k' = k
    · rw [if_pos hk] at h
      exact absurd h (by simp)
    · rw [if_neg hk] at h
      simp [dictPop, hk, ih h]

theorem dictGet?_dictPop_ne {α : Type} (k j : String) (l : List (String × α))
    (h : j ≠ k) : dictGet? j (dictPop k l) = dictGet? j l := by
  induction l with
  | nil => rfl
  | cons hd tl ih =>
    obtain ⟨k', v'⟩ := hd
    by_cases hk : k' = k
    · subst hk
      simp [dictPop, dictGet?, Ne.symm h]
    · by_cases hj : k' = j
      · simp [dictPop, dictGet?, hk, hj, h]
      · simp [dictPop, dictGet?, hk, hj, ih]

theorem countPolls_nil (u : String) : countPolls u [] = 0 := rfl

theorem countPolls_append (u : String) (a b : List Event) :
    countPolls u (a ++ b) = countPolls u a + countPolls u b := by
  simp [countPolls, List.filter_append]

theorem countPolls_eq_zero_of_no_poll {u : String} {evs : List Event}
    (h : ∀ e ∈ evs, isPollOf u e = false) : countPolls u evs = 0 := by
  rw [countPolls, List.length_eq_zero, List.filter_eq_nil_iff]
  intro e he
  simp [h e he]

/-- `_process_message` emits only send events, never a gateway poll. -/
theorem isPollOf_process_message_false (env : Env) (username u : String)
    (m : Message) (config : AutoReplyConfig) (e : Event)
    (he : e ∈ process_message env username m config) : isPollOf u e = false := by
  unfold process_message at he
  split at he
  · simp at he
  · split at he
    · simp at he
    · split at he
      · simp at he
      · split at he
        · simp at he
          subst he
          rfl
        · simp at he
          subst he
          rfl

theorem isPollOf_flatten_process_false (env : Env) (username u : String)
    (msgs : List Message) (config : AutoReplyConfig) (e : Event)
    (he : e ∈ (msgs.map fun m => process_message env username m config).flatten) :
    isPollOf u e = false := by
  rw [List.mem_flatten] at he
  obtain ⟨l, hl, hel⟩ := he
  rw [List.mem_map] at hl
  obtain ⟨m, _, rfl⟩ := hl
  exact isPollOf_process_message_false env username u m config e hel

/-- An account other than `u` contributes no poll event for `u`. -/
theorem countPolls_check_account_other (env : Env) (now : Int)
    (lct : List (String × Int)) (username : String) (config : AutoReplyConfig)
    (u : String) (h : username ≠ u) :
    countPolls u (check_account env now lct username config).2 = 0 := by
  apply countPolls_eq_zero_of_no_poll
  intro e he
  unfold check_account at he
  split at he
  · simp at he
  · split at he
    · simp at he
      subst he
      simp [isPollOf, h]
    · rcases List.mem_cons.mp he with rfl | hmem
      · simp [isPollOf, h]
      · exact isPollOf_flatten_process_false env username u _ config e hmem

/-- The tick never polls an account absent from the keys it iterates. -/
theorem countPolls_check_accounts_absent (env : Env) (now : Int)
    (configs : List (String × AutoReplyConfig)) (lct : List (String × Int))
    (u : String) (h : ∀ p ∈ configs, p.1 ≠ u) :
    countPolls u (check_accounts env now configs lct).2 = 0 := by
  induction configs generalizing lct with
  | nil => rfl
  | cons hd tl ih =>
    obtain ⟨w, cfg⟩ := hd
    rw [check_accounts]
    rw [countPolls_append]
    rw [countPolls_check_account_other env now lct w cfg u (h (w, cfg) (by simp)),
      ih _ fun p hp => h p (List.mem_cons_of_mem _ hp)]

theorem interval_eq : AUTO_REPLY_CHECK_INTERVAL = 60 := rfl

theorem recentlyChecked_true (lct : List (String × Int)) (now t : Int)
    (u : String) (hg : dictGet? u lct = some t)
    (hlt : now - t < AUTO_REPLY_CHECK_INTERVAL) :
    recentlyChecked lct now u = true := by
  rw [recentlyChecked, hg]
  exact decide_eq_true hlt

theorem recentlyChecked_false (lct : List (String × Int)) (now : Int)
    (u : String)
    (hdue : ∀ t, dictGet? u lct = some t → AUTO_REPLY_CHECK_INTERVAL ≤ now - t) :
    recentlyChecked lct now u = false := by
  rw [recentlyChecked]
  cases hg : dictGet? u lct with
  | none => rfl
  | some t => exact decide_eq_false (not_lt.mpr (hdue t hg))

/-- Polling one account leaves every other account's last-check entry alone. -/
theorem dictGet?_check_account_other (env : Env) (now : Int)
    (lct : List (String × Int)) (username : String) (config : AutoReplyConfig)
    (u : String) (h : username ≠ u) :
    dictGet? u (check_account env now lct username config).1 = dictGet? u lct := by
  rw [check_account]
  split
  · rfl
  · cases henv : env.check_new_messages username with
    | error e => simp [henv]
    | ok msgs =>
      simp only [henv]
      exact dictGet?_dictInsert_ne username u now lct (Ne.symm h)

theorem countPolls_cons_poll_self (u : String) (evs : List Event) :
    countPolls u (Event.poll u :: evs) = countPolls u evs + 1 := by
  simp [countPolls, List.filter_cons, isPollOf]

/-- Within one tick, an account due for polling whose gateway fetch succeeds
contributes its poll event followed by its messages' processing events as
one contiguous block of the tick's event sequence, whatever happens for the
other accounts. -/
theorem check_accounts_due_block (env : Env) (now : Int)
    (configs : List (String × AutoReplyConfig)) (lct : List (String × Int))
    (B : String) (cfgB : AutoReplyConfig) (msgsB : List Message)
    (hok : env.check_new_messages B = .ok msgsB)
    (hmem : (B, cfgB) ∈ configs) (hnodup : (configs.map Prod.fst).Nodup)
    (hdue : ∀ t, dictGet? B lct = some t → AUTO_REPLY_CHECK_INTERVAL ≤ now - t) :
    ∃ pre post, (check_accounts env now configs lct).2 =
      pre ++ (Event.poll B ::
        (msgsB.map fun m => process_message env B m cfgB).flatten) ++ post := by
  revert hmem hnodup hdue
  induction configs generalizing lct with
  | nil =>
    intro hmem _ _
    simp at hmem
  | cons hd tl ih =>
    intro hmem hnodup hdue
    obtain ⟨w, cfg⟩ := hd
    rw [List.map_cons, List.nodup_cons] at hnodup
    by_cases hw : w = B
    · have hcfg : cfg = cfgB := by
        rcases List.mem_cons.mp hmem with heq | hmem'
        · rw [hw] at heq
          injection heq with h1 h2
          exact h2.symm
        · exact absurd (List.mem_map.mpr ⟨(B, cfgB), hmem', rfl⟩) (hw ▸ hnodup.1)
      have hca : check_account env now lct w cfg =
          (dictInsert B now lct,
            Event.poll B ::
              (msgsB.map fun m => process_message env B m cfgB).flatten) := by
        rw [hw, hcfg, check_account, recentlyChecked_false lct now B hdue]
        simp [hok]
      refine ⟨[], (check_accounts env now tl (dictInsert B now lct)).2, ?_⟩
      simp [check_accounts, hca]
    · have hmem' : (B, cfgB) ∈ tl := by
        rcases List.mem_cons.mp hmem with heq | hmem'
        · injection heq with h1 h2
          exact absurd h1.symm hw
        · exact hmem'
      have hpres : dictGet? B (check_account env now lct w cfg).1 = dictGet? B lct :=
        dictGet?_check_account_other env now lct w cfg B hw
      obtain ⟨pre, post, hseq⟩ := ih (check_account env now lct w cfg).1
        hmem' hnodup.2 (fun t ht => hdue t (hpres ▸ ht))
      refine ⟨(check_account env now lct w cfg).2 ++ pre, post, ?_⟩
      simp only [check_accounts, hseq]
      simp [List.append_assoc]

/-- Sample environments and states used by the concrete witnesses. -/
def sampleTemplateAI : Template :=
  { id := some "T1", name := "t1", content := "AI:be concise" }

def sampleTemplatePlain : Template :=
  { id := some "T2", name := "t2", content := "Thanks for asking!" }

def sampleEnvGen : Env :=
  { check_new_messages := fun _ => .ok []
    get_template := fun _ => some sampleTemplateAI
    analyze_message_intent := fun _ => none
    generate_dm_response := fun _ _ _ => some "Thanks!"
    send_auto_reply := fun _ _ _ => (true, none) }

def sampleEnvPlain : Env :=
  { sampleEnvGen with get_template := fun _ => some sampleTemplatePlain }

def sampleEnvNoGen : Env :=
  { sampleEnvGen with generate_dm_response := fun _ _ _ => none }

def cfgEnabledSample : AutoReplyConfig := { is_enabled := true }

def cfgDisabledSample : AutoReplyConfig := { is_enabled := false }

def samplePollEnv : Env :=
  { check_new_messages := fun _ => .ok []
    get_template := fun _ => none
    analyze_message_intent := fun _ => none
    generate_dm_response := fun _ _ _ => none
    send_auto_reply := fun _ _ _ => (true, none) }

/-- C2 (amended): an account whose recorded last poll is less than
`AUTO_REPLY_CHECK_INTERVAL` time-units old is skipped — state unchanged and
no gateway poll — and two per-account checks within 10 time-units of each
other produce exactly one gateway poll call for that account, provided the
account is due at the first check and the gateway fetch then returns
normally (a failed fetch records no last-poll time). -/
theorem C2_per_account_cooldown (env : Env) (lct : List (String × Int))
    (username : String) (config : AutoReplyConfig) (now t now₁ now₂ : Int)
    (msgs : List Message)
    (hok : env.check_new_messages username = .ok msgs) :
    (dictGet? username lct = some t → now - t < AUTO_REPLY_CHECK_INTERVAL →
      check_account env now lct username config = (lct, [])) ∧
    ((∀ t', dictGet? username lct = some t' →
        AUTO_REPLY_CHECK_INTERVAL ≤ now₁ - t') →
      0 ≤ now₂ - now₁ → now₂ - now₁ ≤ 10 →
      countPolls username
        ((check_account env now₁ lct username config).2 ++
          (check_account env now₂
            (check_account env now₁ lct username config).1 username config).2) = 1) := by
  constructor
  · intro hg hlt
    rw [check_account, if_pos (recentlyChecked_true lct now t username hg hlt)]
  · intro hdue h0 h10
    have h1 : check_account env now₁ lct username config =
        (dictInsert username now₁ lct,
          Event.poll username ::
            (msgs.map fun m => process_message env username m config).flatten) := by
      rw [check_account, recentlyChecked_false lct now₁ username hdue]
      simp [hok]
    have h2 : check_account env now₂ (dictInsert username now₁ lct)
        username config = (dictInsert username now₁ lct, []) := by
      rw [check_account,
        if_pos (recentlyChecked_true _ now₂ now₁ username
          (dictGet?_dictInsert_self username now₁ lct) (by rw [interval_eq]; omega))]
    rw [h1]
    simp only [h2]
    rw [List.append_nil, countPolls_cons_poll_self,
      countPolls_eq_zero_of_no_poll
        (fun e he => isPollOf_flatten_process_false env username username
          msgs config e he)]

/-- C2 witness: with last poll recorded at time 0, a check at time 30 is
skipped entirely; checks at times 100 and 105 yield exactly one poll. -/
theorem C2_witness :
    samplePollEnv.check_new_messages "a" = .ok [] ∧
    check_account samplePollEnv 30 [("a", 0)] "a" {} = ([("a", 0)], []) ∧
    countPolls "a"
      ((check_account samplePollEnv 100 [("a", 0)] "a" {}).2 ++
        (check_account samplePollEnv 105
          (check_account samplePollEnv 100 [("a", 0)] "a" {}).1 "a" {}).2) = 1 :=
  ⟨rfl,
    (C2_per_account_cooldown samplePollEnv [("a", 0)] "a" {} 30 0 100 105 []
      rfl).1 rfl (by decide),
    (C2_per_account_cooldown samplePollEnv [("a", 0)] "a" {} 30 0 100 105 []
      rfl).2
      (by
        intro t' ht'
        simp [dictGet?] at ht'
        rw [interval_eq]
        omega)
      (by decide) (by decide)⟩

/-- C3: `update_config` with an enabled config inserts/replaces exactly the
account's entry; with a disabled config it removes the entry (a no-op when
absent, leaving the mapping identical); and an account absent from the
active set receives no gateway poll during a tick. -/
theorem C3_update_config_semantics (st : ManagerState) (u : String)
    (cfg : AutoReplyConfig) :
    (cfg.is_enabled = true →
      dictGet? u (update_config st u cfg).active_configs = some cfg ∧
      ∀ v, v ≠ u →
        dictGet? v (update_config st u cfg).active_configs =
          dictGet? v st.active_configs) ∧
    (cfg.is_enabled = false →
      ((st.active_configs.map Prod.fst).Nodup →
        dictGet? u (update_config st u cfg).active_configs = none) ∧
      (∀ v, v ≠ u →
        dictGet? v (update_config st u cfg).active_configs =
          dictGet? v st.active_configs) ∧
      (dictGet? u st.active_configs = none →
        (update_config st u cfg).active_configs = st.active_configs)) ∧
    (∀ env now, dictGet? u st.active_configs = none →
      countPolls u (check_new_messages env now st).2 = 0) := by
  refine ⟨?_, ?_, ?_⟩
  · intro he
    have hua : (update_config st u cfg).active_configs =
        dictInsert u cfg st.active_configs := by
      simp [update_config, he]
    rw [hua]
    exact ⟨dictGet?_dictInsert_self u cfg st.active_configs,
      fun v hv => dictGet?_dictInsert_ne u v cfg st.active_configs hv⟩
  · intro he
    have hua : (update_config st u cfg).active_configs =
        dictPop u st.active_configs := by
      simp [update_config, he]
    rw [hua]
    exact ⟨fun hnd => dictGet?_dictPop_self u st.active_configs hnd,
      fun v hv => dictGet?_dictPop_ne u v st.active_configs hv,
      fun habs => dictPop_of_absent u st.active_configs habs⟩
  · intro env now habs
    exact countPolls_check_accounts_absent env now st.active_configs
      st.last_check_times u ((dictGet?_eq_none_iff u st.active_configs).1 habs)

def stTwoAccounts : ManagerState :=
  { is_running := true,
    active_configs := [("alice", cfgEnabledSample), ("bob", cfgEnabledSample)],
    last_check_times := [] }

/-- C3 witness: disabling `alice` removes her entry, and the unknown account
`ghost` is never polled in a tick over the two-account state. -/
theorem C3_witness :
    cfgDisabledSample.is_enabled = false ∧
    dictGet? "alice"
      (update_config stTwoAccounts "alice" cfgDisabledSample).active_configs =
      none ∧
    dictGet? "ghost" stTwoAccounts.active_configs = none ∧
    countPolls "ghost" (check_new_messages samplePollEnv 100 stTwoAccounts).2 = 0 :=
  ⟨rfl,
    ((C3_update_config_semantics stTwoAccounts "alice" cfgDisabledSample).2.1
      rfl).1 (by decide),
    rfl,
    (C3_update_config_semantics stTwoAccounts "ghost" cfgDisabledSample).2.2
      samplePollEnv 100 rfl⟩

/-- C4: a gateway fault for account A during a tick is caught and does not
prevent a distinct due account B from being polled and having its messages
processed in the same tick: B's poll event and processing events appear in
the tick's event sequence. -/
theorem C4_fault_isolation (env : Env) (now : Int) (st : ManagerState)
    (A B : String) (cfgA cfgB : AutoReplyConfig) (e : String)
    (msgsB : List Message)
    (hAB : A ≠ B)
    (hmemA : (A, cfgA) ∈ st.active_configs)
    (hfault : env.check_new_messages A = .error e)
    (hmemB : (B, cfgB) ∈ st.active_configs)
    (hnodup : (st.active_configs.map Prod.fst).Nodup)
    (hdueB : ∀ t, dictGet? B st.last_check_times = some t →
      AUTO_REPLY_CHECK_INTERVAL ≤ now - t)
    (hokB : env.check_new_messages B = .ok msgsB) :
    Event.poll B ∈ (check_new_messages env now st).2 ∧
    ∃ pre post, (check_new_messages env now st).2 =
      pre ++ (Event.poll B ::
        (msgsB.map fun m => process_message env B m cfgB).flatten) ++ post := by
  obtain ⟨pre, post, hseq⟩ := check_accounts_due_block env now st.active_configs
    st.last_check_times B cfgB msgsB hokB hmemB hnodup hdueB
  have heq : (check_new_messages env now st).2 =
      (check_accounts env now st.active_configs st.last_check_times).2 := rfl
  rw [heq, hseq]
  exact ⟨by simp, pre, post, rfl⟩

def sampleFaultEnv : Env :=
  { check_new_messages := fun u => if u = "a" then .error "boom" else .ok []
    get_template := fun _ => none
    analyze_message_intent := fun _ => none
    generate_dm_response := fun _ _ _ => none
    send_auto_reply := fun _ _ _ => (true, none) }

def stFaultPair : ManagerState :=
  { is_running := true,
    active_configs := [("a", cfgEnabledSample), ("b", cfgEnabledSample)],
    last_check_times := [] }

/-- C4 witness: the gateway raises for account `a`, yet the tick still polls
account `b`. -/
theorem C4_witness :
    sampleFaultEnv.check_new_messages "a" = .error "boom" ∧
    Event.poll "b" ∈ (check_new_messages sampleFaultEnv 100 stFaultPair).2 :=
  ⟨rfl,
    (C4_fault_isolation sampleFaultEnv 100 stFaultPair "a" "b"
      cfgEnabledSample cfgEnabledSample "boom" []
      (by decide) (by simp [stFaultPair]) rfl (by simp [stFaultPair])
      (by decide)
      (fun t ht => by simp [stFaultPair, dictGet?] at ht)
      rfl).1⟩

/-- C2 counterexample: the unqualified claim "two checks within 10
time-units of each other produce exactly one gateway poll call" fails on the
code at concrete inputs.  First scenario: the account already has a poll
recorded at time 0, so checks at times 30 and 35 are both inside the
cooldown and produce zero polls.  Second scenario: the gateway raises for
the account, so the check at time 100 polls, records no last-poll time
(recording happens only after a successful fetch), and the check at time
105 polls again — two polls. -/
theorem C2_counterexample :
    countPolls "a"
      ((check_account samplePollEnv 30 [("a", 0)] "a" {}).2 ++
        (check_account samplePollEnv 35
          (check_account samplePollEnv 30 [("a", 0)] "a" {}).1 "a" {}).2) = 0 ∧
    countPolls "a"
      ((check_account sampleFaultEnv 100 [] "a" {}).2 ++
        (check_account sampleFaultEnv 105
          (check_account sampleFaultEnv 100 [] "a" {}).1 "a" {}).2) = 2 := by
  exact ⟨rfl, rfl⟩

/-- C5: for a template whose content carries the `AI:` marker,
`_get_reply_template` returns the generator's output when it is truthy, and
falls back to the raw template content (marker included) when generation
yields no text (`None` or the empty string). -/
theorem C5_ai_generation_and_fallback (env : Env) (template_id : Option String)
    (m : Message) (tpl : Template)
    (hlook : env.get_template template_id = some tpl)
    (hAI : pyStartsWith tpl.content "AI:" = true) :
    (∀ r, env.generate_dm_response (m.text.getD "")
        (env.analyze_message_intent (m.text.getD ""))
        (pyDrop tpl.content 3) = some r →
      r ≠ "" → (get_reply_template env template_id m).1 = some r) ∧
    (pyTruthy (env.generate_dm_response (m.text.getD "")
        (env.analyze_message_intent (m.text.getD ""))
        (pyDrop tpl.content 3)) = false →
      (get_reply_template env template_id m).1 = some tpl.content) := by
  constructor
  · intro r hr hne
    simp [get_reply_template, hlook, hAI, hr, pyTruthy, hne]
  · intro hf
    simp [get_reply_template, hlook, hAI, hf]

/-- C5 witness: a concrete `AI:` template; with a generator returning
`"Thanks!"` the resolver returns `"Thanks!"`, and with a generator returning
nothing it returns the literal `"AI:be concise"`. -/
theorem C5_witness :
    sampleEnvGen.get_template (some "T1") = some sampleTemplateAI ∧
    pyStartsWith sampleTemplateAI.content "AI:" = true ∧
    (get_reply_template sampleEnvGen (some "T1")
      { text := some "hi" }).1 = some "Thanks!" ∧
    (get_reply_template sampleEnvNoGen (some "T1")
      { text := some "hi" }).1 = some "AI:be concise" :=
  ⟨rfl, by decide,
    (C5_ai_generation_and_fallback sampleEnvGen (some "T1") { text := some "hi" }
        sampleTemplateAI rfl (by decide)).1 "Thanks!" rfl (by decide),
    (C5_ai_generation_and_fallback sampleEnvNoGen (some "T1") { text := some "hi" }
        sampleTemplateAI rfl (by decide)).2 rfl⟩

/-- C6: for a template found in the store whose content does not carry the
`AI:` marker, `_get_reply_template` returns the content verbatim and makes
no generator call at all (empty call list). -/
theorem C6_verbatim_template (env : Env) (template_id : Option String)
    (m : Message) (tpl : Template)
    (hlook : env.get_template template_id = some tpl)
    (hAI : pyStartsWith tpl.content "AI:" = false) :
    get_reply_template env template_id m = (some tpl.content, []) := by
  simp [get_reply_template, hlook, hAI]

/-- C6 witness: a concrete plain template is returned verbatim with no
generator call. -/
theorem C6_witness :
    sampleEnvPlain.get_template (some "T2") = some sampleTemplatePlain ∧
    pyStartsWith sampleTemplatePlain.content "AI:" = false ∧
    get_reply_template sampleEnvPlain (some "T2") { text := some "hi" } =
      (some "Thanks for asking!", []) :=
  ⟨rfl, by decide,
    C6_verbatim_template sampleEnvPlain (some "T2") { text := some "hi" }
      sampleTemplatePlain rfl (by decide)⟩

/-- C9: the marker test is `content.startswith("AI:")`, case-sensitive and
three characters long: content `'A' 'I' ':' ++ rest` invokes the generator
with guide exactly `rest` (the content minus its first three characters),
while content starting `"ai:"` or `"Ai:"` is returned verbatim with no
generator call. -/
theorem C9_marker_case_sensitive (env : Env) (template_id : Option String)
    (m : Message) (tpl : Template) (rest : List Char)
    (hlook : env.get_template template_id = some tpl) :
    (tpl.content.data = 'A' :: 'I' :: ':' :: rest →
      pyDrop tpl.content 3 = ⟨rest⟩ ∧
      (get_reply_template env template_id m).2 =
        [GroqCall.analyze (m.text.getD ""),
         GroqCall.generate (m.text.getD "")
           (env.analyze_message_intent (m.text.getD "")) ⟨rest⟩]) ∧
    (tpl.content.data = 'a' :: 'i' :: ':' :: rest →
      get_reply_template env template_id m = (some tpl.content, [])) ∧
    (tpl.content.data = 'A' :: 'i' :: ':' :: rest →
      get_reply_template env template_id m = (some tpl.content, [])) := by
  refine ⟨?_, ?_, ?_⟩
  · intro h
    have hdrop : pyDrop tpl.content 3 = ⟨rest⟩ := by
      rw [pyDrop, h]
      rfl
    have hstart : pyStartsWith tpl.content "AI:" = true := by
      rw [pyStartsWith, h, AI_marker_data]
      exact decide_eq_true ⟨rest, rfl⟩
    exact ⟨hdrop, by simp [get_reply_template, hlook, hstart, hdrop]⟩
  · intro h
    have hstart : pyStartsWith tpl.content "AI:" = false := by
      rw [pyStartsWith, h, AI_marker_data]
      apply decide_eq_false
      intro hpre
      rw [List.cons_prefix_cons] at hpre
      exact absurd hpre.1 (by decide)
    simp [get_reply_template, hlook, hstart]
  · intro h
    have hstart : pyStartsWith tpl.content "AI:" = false := by
      rw [pyStartsWith, h, AI_marker_data]
      apply decide_eq_false
      intro hpre
      rw [List.cons_prefix_cons] at hpre
      rw [List.cons_prefix_cons] at hpre  -- strip the matching first character
      exact absurd hpre.2.1 (by decide)
    simp [get_reply_template, hlook, hstart]

def sampleTemplateLower : Template :=
  { id := some "T3", name := "t3", content := "ai:be concise" }

def sampleEnvLower : Env :=
  { sampleEnvGen with get_template := fun _ => some sampleTemplateLower }

/-- C9 witness: `"AI:be concise"` triggers generation with guide
`"be concise"`, while `"ai:be concise"` is returned verbatim with no
generator call. -/
theorem C9_witness :
    sampleEnvGen.get_template (some "T1") = some sampleTemplateAI ∧
    sampleTemplateAI.content.data =
      'A' :: 'I' :: ':' :: ("be concise" : String).data ∧
    pyDrop sampleTemplateAI.content 3 = "be concise" ∧
    get_reply_template sampleEnvLower (some "T3") { text := some "hi" } =
      (some "ai:be concise", []) :=
  ⟨rfl, rfl,
    ((C9_marker_case_sensitive sampleEnvGen (some "T1") { text := some "hi" }
        sampleTemplateAI ("be concise" : String).data rfl).1 rfl).1,
    (C9_marker_case_sensitive sampleEnvLower (some "T3") { text := some "hi" }
        sampleTemplateLower ("be concise" : String).data rfl).2.1 rfl⟩

/-- C7: one iteration of the `while self.is_running` loop exits exactly when
the running flag is false at the iteration boundary; an exception escaping
the tick is caught by the top-level handler, the iteration sleeps the tick
interval, and the loop does not exit; after `stop()` the next iteration
boundary exits. -/
theorem C7_loop_step (tick : ManagerState → Except String (ManagerState × List Event))
    (st : ManagerState) :
    ((loop_step tick st).exited = true ↔ st.is_running = false) ∧
    (∀ e, st.is_running = true → tick st = .error e →
      (loop_step tick st).exited = false ∧
      (loop_step tick st).caught = true ∧
      (loop_step tick st).sleep = some AUTO_REPLY_CHECK_INTERVAL) ∧
    (loop_step tick (stop st)).exited = true := by
  refine ⟨?_, ?_, ?_⟩
  · cases hr : st.is_running
    · simp [loop_step, hr]
    · cases htick : tick st with
      | ok v => obtain ⟨st', evs⟩ := v; simp [loop_step, hr, htick]
      | error e => simp [loop_step, hr, htick]
  · intro e hr htick
    simp [loop_step, hr, htick]
  · simp [loop_step, stop]

def tickFail : ManagerState → Except String (ManagerState × List Event) :=
  fun _ => .error "boom"

def runningState : ManagerState := { is_running := true }

/-- C7 witness: with a running state and a tick that raises, the iteration
catches the fault, does not exit, and sleeps the interval. -/
theorem C7_witness :
    runningState.is_running = true ∧
    tickFail runningState = .error "boom" ∧
    (loop_step tickFail runningState).caught = true :=
  ⟨rfl, rfl, ((C7_loop_step tickFail runningState).2.1 "boom" rfl rfl).2.1⟩

def stAliceState : ManagerState :=
  { is_running := true,
    active_configs := [("alice", cfgEnabledSample)],
    last_check_times := [("alice", 5)] }

/-- C8 counterexample: disabling the account `alice` via `update_config`
removes it from `active_configs` but leaves its `last_check_times` entry (its
PollCursor) in place, contradicting the claim that the cursor is discarded. -/
theorem C8_counterexample :
    (update_config stAliceState "alice" cfgDisabledSample).active_configs = [] ∧
    (update_config stAliceState "alice" cfgDisabledSample).last_check_times =
      [("alice", 5)] ∧
    dictGet? "alice"
      (update_config stAliceState "alice" cfgDisabledSample).last_check_times =
      some 5 := by
  refine ⟨rfl, rfl, rfl⟩

/-- C8 amended: `update_config` never modifies `last_check_times` at all —
in particular, removing an account from the active set leaves its PollCursor
entry in place; cursors are only lost when the process stops (the mapping is
process-lifetime state). -/
theorem C8_amended_cursor_untouched (st : ManagerState) (username : String)
    (config : AutoReplyConfig) :
    (update_config st username config).last_check_times = st.last_check_times := by
  cases h : config.is_enabled <;> simp [update_config, h]

/-- C10 witness: a concrete message without `text` and a concrete
`contains` condition with non-empty operand. -/
theorem C10_witness :
    ({ text := none } : Message).text = none ∧
    should_reply { text := none }
      { conditions := [("contains", "price")] } = false :=
  ⟨rfl,
    (C10_missing_text_key { text := none }
        { conditions := [("contains", "price")] } rfl).2
      "contains" "price" (by simp) (Or.inl rfl) (by decide)⟩

end AutoReply
